import Mathlib

/-
Verification of fabtools.openvz.contextmanager (fabtools/openvz/contextmanager.py).

The module monkey-patches fabric.operations._run_command inside a scoped
region so that commands are redirected into an OpenVZ container via
`vzctl exec2`.  We embed the command-construction pipeline as pure string
functions, thread the mutable fabric `env` settings explicitly, model the
remote execution channel as a function parameter, and model the
contextmanager's control flow (including Python generator semantics for
exceptions thrown at the `yield` point) as a small step function on the
process-wide primitive slot.

Helpers of the external fabric framework (`_shell_wrap`, `_shell_escape`,
`_sudo_prefix`, `_prefix_commands`, `_prefix_env_vars`) are not part of the
repository's sources; they are modelled from the specification, as noted on
each definition.
-/

namespace OpenVZ

/-- The mutable global fabric settings (`fabric.state.env`) that the module
reads or writes: the interactive shell invocation string (`env.shell`), the
sudo password-prompt prefix template (`env.sudo_prefix`, embedded here under
the name `sudoPrefixTmpl`), the sudo prompt text, the global use-shell and warn-only
switches, and the state consumed by the prefixing transforms (current working
directory, command prefixes from `prefix()`/`cd()`, and `shell_env`
environment variables). -/
structure Env where
  shell : String
  sudoPrefixTmpl : String
  sudo_prompt : String
  use_shell : Bool
  warn_only : Bool
  cwd : String
  command_prefixes : List String
  shell_env : List (String × String)
deriving Repr, DecidableEq

/-- Replace every occurrence of a (nonempty) pattern in a character list by
a replacement, written with structural recursion on a fuel bound so the
kernel can evaluate it; the fuel in `pyFormat` always suffices because each
step consumes at least one character. -/
def replaceAll (fuel : Nat) (s pat val : List Char) : List Char :=
  match fuel, s with
  | 0, _ => []
  | _, [] => []
  | Nat.succ n, c :: rest =>
      if List.isPrefixOf pat (c :: rest) then
        val ++ replaceAll n (List.drop pat.length (c :: rest)) pat val
      else
        c :: replaceAll n rest pat val

/-- Python `%`-formatting of a template against one named key: every
occurrence of the key pattern is replaced by the value. -/
def pyFormat (tmpl key val : String) : String :=
  String.mk (replaceAll (tmpl.data.length + 1) tmpl.data key.data val.data)

/-- Modelled from the spec: fabric.operations._sudo_prefix is not in src/.
Builds the sudo prefix from the sudo-password-prompt template by
substituting the prompt text; with a target user, a `-u "<user>"` clause is
appended. -/
def sudoPrefixFor (e : Env) (user : Option String) : String :=
  let pfx := pyFormat e.sudoPrefixTmpl "%(sudo_prompt)s" e.sudo_prompt
  match user with
  | none => pfx
  | some u => pfx ++ "-u \"" ++ u ++ "\" "

/-- Modelled from the spec: fabric.operations._prefix_env_vars is not in
src/.  Environment-variable prefixing: with no configured shell environment
the command is returned unchanged, otherwise an `export` clause is glued in
front with ` && `. -/
def _prefix_env_vars (e : Env) (command : String) : String :=
  match e.shell_env with
  | [] => command
  | kvs =>
      "export "
        ++ String.intercalate " " (kvs.map (fun kv => kv.1 ++ "=\"" ++ kv.2 ++ "\""))
        ++ " && " ++ command

/-- Modelled from the spec: fabric.operations._prefix_commands is not in
src/.  Working-directory and command prefixing (the `remote` variant uses
`env.cwd`): with no active prefixes the command is returned unchanged,
otherwise the prefixes are glued in front with ` && `. -/
def _prefix_commands (e : Env) (command : String) : String :=
  let pfxs := (if e.cwd = "" then [] else ["cd " ++ e.cwd]) ++ e.command_prefixes
  match pfxs with
  | [] => command
  | ps => String.intercalate " && " ps ++ " && " ++ command

/-- Modelled from the spec: fabric.operations._shell_escape is not in src/.
The transport-level escape pass applied by the standard shell wrap: each of
the characters special inside double quotes (the double quote, the dollar
sign and the backquote, U+0060) gets a backslash in front.  (fabric replaces
the three characters one after the other; since the inserted backslash is
never itself a target, this equals the single character-wise pass.) -/
def _shell_escape (s : String) : String :=
  String.mk (s.data.flatMap fun c =>
    if c = '"' || c = '$' || c = Char.ofNat 96 then ['\\', c] else [c])

/-- The sudo-prefix handling shared by both wrap routines: `None` becomes
the empty string, a given prefix gets a trailing space. -/
def sudoPart : Option String → String
  | none => ""
  | some p => p ++ " "

/-- Modelled from the spec: fabric.operations._shell_wrap is not in src/.
Standard shell wrap: if shell-wrapping is requested and globally enabled,
produce sudo-prefix-and-space, then the shell invocation and a space, then
the command escaped by the transport-level pass and placed in double
quotes; otherwise the bare (possibly sudo-prefixed) command. -/
def _shell_wrap (e : Env) (command : String) (shell : Bool)
    (sudoPfx : Option String) : String :=
  let shell := shell && e.use_shell
  if shell then
    sudoPart sudoPfx ++ (e.shell ++ " ") ++ ("\"" ++ _shell_escape command ++ "\"")
  else
    sudoPart sudoPfx ++ command

/-- From src (contextmanager.py, `_shell_wrap_inner`): conditionally wrap the
command in env.shell while honoring sudo; identical to the standard wrap
except that the command is quoted without the transport-level escape pass,
because the wrapping host command gets shell escaped one level up. -/
def _shell_wrap_inner (e : Env) (command : String) (shell : Bool)
    (sudoPfx : Option String) : String :=
  let shell := shell && e.use_shell
  if shell then
    sudoPart sudoPfx ++ (e.shell ++ " ") ++ ("\"" ++ command ++ "\"")
  else
    sudoPart sudoPfx ++ command

/-- The execution result assembled by `_run_host_command`: the
`_AttributeString` of the remote stdout together with the attributes the
function attaches (`failed`, `return_code`, `succeeded`, `stderr`). -/
structure ExecResult where
  text : String
  failed : Bool
  return_code : Int
  succeeded : Bool
  stderr : String
deriving Repr, DecidableEq

/-- A remote execution channel, modelling `_execute(default_channel(), cmd,
pty, combine_stderr)`: from the wrapped command and the pty and
combine-stderr plumbing flags it yields (stdout, stderr, exit status). -/
abbrev Channel : Type := String → Bool → Bool → String × String × Int

/-- The wrapped command `_run_host_command` builds for the transport:
`_shell_wrap(command, shell, _sudo_prefix(None))` — the standard shell wrap,
always with the root sudo prefix. -/
def host_wrapped_command (e : Env) (command : String) (shell : Bool) : String :=
  _shell_wrap e command shell (some (sudoPrefixFor e none))

/-- From src (contextmanager.py, `_run_host_command`): run the host wrapper
command as root.  Wraps the command with the standard shell wrap and the
root sudo prefix, executes it on the channel, and assembles the result.  On
a nonzero exit status with warn-only unset, fabric's `error` raises (the
`Except.error` branch carries the message built by the function); in
warn-only mode `error` only records a warning and the result object is
still returned, so callers can inspect `failed`/`return_code`. -/
def _run_host_command (e : Env) (command : String)
    (shell pty combine_stderr : Bool) (chan : Channel) :
    Except String ExecResult :=
  let given_command := command
  let wrapped_command := host_wrapped_command e command shell
  let r := chan wrapped_command pty combine_stderr
  let stdout := r.1
  let stderr := r.2.1
  let status := r.2.2
  let failed := decide (status ≠ 0)
  if status ≠ 0 ∧ e.warn_only = false then
    Except.error ("sudo() received nonzero return code " ++ toString status
      ++ " while executing!\n\nRequested: " ++ given_command
      ++ "\nExecuted: " ++ wrapped_command)
  else
    Except.ok ⟨stdout, failed, status, !failed, stderr⟩

/-- The fabric `env` as `run_guest_command` has rewritten it between its
first and second block: a non-login shell (`/bin/bash -c`) and a
double-quoted sudo prompt template. -/
def guestEnv (e : Env) : Env :=
  { e with shell := "/bin/bash -c",
           sudoPrefixTmpl := "sudo -S -p \"%(sudo_prompt)s\" " }

/-- From src (contextmanager.py, `run_guest_command`): the guest command
built inside the rewritten primitive — the inner shell wrap (with the guest
settings in force) of the env-var- and command-prefixed command, with
shell-wrapping requested unconditionally (`True`), and a sudo prefix only
when `sudoFlag` is set and a target user is given. -/
def guest_command (e : Env) (command : String) (sudoFlag : Bool)
    (user : Option String) : String :=
  _shell_wrap_inner (guestEnv e)
    (_prefix_commands (guestEnv e) (_prefix_env_vars (guestEnv e) command))
    true
    (if sudoFlag && user.isSome then some (sudoPrefixFor (guestEnv e) user) else none)

/-- From src (contextmanager.py, `run_guest_command`): the outer host
command, `"vzctl exec2 %s '%s'" % (name_or_ctid, guest_command)`. -/
def host_command (e : Env) (name_or_ctid command : String) (sudoFlag : Bool)
    (user : Option String) : String :=
  "vzctl exec2 " ++ name_or_ctid ++ " '" ++ guest_command e command sudoFlag user ++ "'"

/-- From src (contextmanager.py, `run_guest_command`), with the mutable
fabric `env` threaded explicitly: save `env.shell` and `env.sudo_prefix`,
force the guest settings, build the guest and host commands, restore the
two settings, then run the host command through `_run_host_command` with
the restored `env`.  Returns the call's result together with the `env`
state at return. -/
def run_guest_command_st (e : Env) (name_or_ctid command : String)
    (shell pty combine_stderr : Bool) (sudoFlag : Bool) (user : Option String)
    (chan : Channel) : Except String ExecResult × Env :=
  let origShell := e.shell
  let e1 := { e with shell := "/bin/bash -c" }
  let origSudoPfxTmpl := e1.sudoPrefixTmpl
  let e2 := { e1 with sudoPrefixTmpl := "sudo -S -p \"%(sudo_prompt)s\" " }
  let gcmd := _shell_wrap_inner e2
    (_prefix_commands e2 (_prefix_env_vars e2 command))
    true
    (if sudoFlag && user.isSome then some (sudoPrefixFor e2 user) else none)
  let hcmd := "vzctl exec2 " ++ name_or_ctid ++ " '" ++ gcmd ++ "'"
  let e3 := { e2 with shell := origShell }
  let e4 := { e3 with sudoPrefixTmpl := origSudoPfxTmpl }
  (_run_host_command e4 hcmd shell pty combine_stderr chan, e4)

/-- A value held by the process-wide `fabric.operations._run_command` slot:
either some externally installed primitive (identified by a tag) or the
`run_guest_command` closure installed by `guest` for a given container. -/
inductive Prim where
  | ext (id : Nat)
  | guestPatch (name_or_ctid : String)
deriving Repr, DecidableEq

/-- How the scoped block under `with guest(...)` terminates. -/
inductive BodyExit where
  | normal
  | earlyReturn
  | raised
deriving Repr, DecidableEq

/-- From src (contextmanager.py, `guest`): the effect of one use of the
scope on the `fabric.operations._run_command` slot.  The generator saves
the original primitive, installs `run_guest_command`, and yields once; the
restore line after the bare `yield` has no try/finally around it.  Under
Python's `@contextmanager` semantics: on a normal exit or an early return
from the scoped block, `__exit__` resumes the generator at the `yield` and
the restore line runs; when the block raises, `__exit__` throws the
exception into the generator at the `yield` point, the generator has no
handler, so the restore line is skipped and the patched primitive stays
installed while the exception propagates. -/
def guest (name_or_ctid : String) (exitKind : BodyExit) (slot : Prim) : Prim :=
  let orig := slot
  let patched := Prim.guestPatch name_or_ctid
  match exitKind with
  | .normal => orig
  | .earlyReturn => orig
  | .raised => patched

/-- A fabric `env` with the library's default settings and no active
prefixes, used for concrete evaluations. -/
def defaultEnv : Env where
  shell := "/bin/bash -l -c"
  sudoPrefixTmpl := "sudo -S -p '%(sudo_prompt)s' "
  sudo_prompt := "sudo password:"
  use_shell := true
  warn_only := false
  cwd := ""
  command_prefixes := []
  shell_env := []

/-- A fabric `env` with warn-only set, for concrete evaluations. -/
def warnEnv : Env := { defaultEnv with warn_only := true }

/-- One string occurs inside another (as a contiguous substring). -/
def strContains (hay piece : String) : Prop :=
  ∃ u v, hay = u ++ piece ++ v

/-- Claim C1 (code_bug evidence): the scoped patch of
`fabric.operations._run_command` is restored on a normal exit and on an
early return from the scoped block, but when the block raises, the restore
line after the bare `yield` is skipped, so the patched primitive — not the
one installed before scope entry — remains installed. -/
theorem guest_patch_leaks_on_exception :
    guest "101" BodyExit.raised (Prim.ext 0) = Prim.guestPatch "101"
    ∧ Prim.guestPatch "101" ≠ Prim.ext 0
    ∧ guest "101" BodyExit.normal (Prim.ext 0) = Prim.ext 0
    ∧ guest "101" BodyExit.earlyReturn (Prim.ext 0) = Prim.ext 0 := by
  refine ⟨rfl, ?_, rfl, rfl⟩
  decide

/-- Claim C2: for every command `c` and container identifier `t`, the
replacement primitive builds the outer host command as exactly
`"vzctl exec2 " ++ t ++ " '" ++ inner(c) ++ "'"`, where `inner(c)` is the
inner wrap (under the guest settings, with `env.shell` forced to
`/bin/bash -c`) of `c` after environment-variable and working-directory
prefixing; in particular for command `echo hi`, container `101`, no sudo
and no active prefixes the outer command is
`vzctl exec2 101 '/bin/bash -c "echo hi"'`. -/
theorem outer_command_shape (e : Env) (t c : String) (sf : Bool)
    (u : Option String) :
    host_command e t c sf u
      = "vzctl exec2 " ++ t ++ " '"
          ++ _shell_wrap_inner (guestEnv e)
               (_prefix_commands (guestEnv e) (_prefix_env_vars (guestEnv e) c))
               true
               (if sf && u.isSome then some (sudoPrefixFor (guestEnv e) u) else none)
          ++ "'"
    ∧ host_command defaultEnv "101" "echo hi" false none
        = "vzctl exec2 101 '/bin/bash -c \"echo hi\"'" :=
  ⟨rfl, by decide⟩

/-- Claim C3: on the host-execution path, exit status 0 yields a result
with `failed = false` and `succeeded = true`; a nonzero status in warn-only
mode yields `failed = true` and `succeeded = false`; a nonzero status with
warn-only unset raises an error whose message contains both the originally
requested command and the fully wrapped command actually executed. -/
theorem run_host_command_exit_status (e : Env) (c : String) (sh pty cs : Bool)
    (chan : Channel) (stdout stderr : String) (status : Int)
    (hc : chan (host_wrapped_command e c sh) pty cs = (stdout, stderr, status)) :
    (status = 0 →
      _run_host_command e c sh pty cs chan
        = Except.ok ⟨stdout, false, 0, true, stderr⟩)
    ∧ (status ≠ 0 → e.warn_only = true →
      _run_host_command e c sh pty cs chan
        = Except.ok ⟨stdout, true, status, false, stderr⟩)
    ∧ (status ≠ 0 → e.warn_only = false →
      ∃ msg, _run_host_command e c sh pty cs chan = Except.error msg
        ∧ strContains msg c
        ∧ strContains msg (host_wrapped_command e c sh)) := by
  refine ⟨?_, ?_, ?_⟩
  · intro h0
    subst h0
    simp [_run_host_command, hc]
  · intro hne hw
    simp [_run_host_command, hc, hne, hw]
  · intro hne hw
    refine ⟨"sudo() received nonzero return code " ++ toString status
        ++ " while executing!\n\nRequested: " ++ c
        ++ "\nExecuted: " ++ host_wrapped_command e c sh, ?_, ?_, ?_⟩
    · simp [_run_host_command, hc, hne, hw]
    · exact ⟨"sudo() received nonzero return code " ++ toString status
          ++ " while executing!\n\nRequested: ",
        "\nExecuted: " ++ host_wrapped_command e c sh,
        by simp [String.append_assoc]⟩
    · exact ⟨"sudo() received nonzero return code " ++ toString status
          ++ " while executing!\n\nRequested: " ++ c ++ "\nExecuted: ",
        "",
        by simp [String.append_assoc]⟩

/-- Witness for C3: a channel reporting exit status 0 yields a successful
result with `failed = false` and `succeeded = true`. -/
theorem run_host_command_exit_status_w :
    _run_host_command defaultEnv "ls" true false true
        (fun _ _ _ => ("out", "err", 0))
      = Except.ok ⟨"out", false, 0, true, "err"⟩ :=
  (run_host_command_exit_status defaultEnv "ls" true false true
    (fun _ _ _ => ("out", "err", 0)) "out" "err" 0 rfl).1 rfl

/-- Claim C4 (counterexample): applying the transport-level escape pass to
inner-wrap's whole output does not reproduce standard-wrap's output — the
pass escapes the double quotes that inner-wrap itself placed around the
command. -/
theorem escape_after_inner_wrap_differs :
    _shell_escape (_shell_wrap_inner defaultEnv "echo hi" true none)
      ≠ _shell_wrap defaultEnv "echo hi" true none := by
  decide

/-- Claim C4 (amended): inner-wrap and standard-wrap share the assembly
(sudo part, then shell invocation and space, then the command in double
quotes); standard-wrap differs only by applying the transport-level escape
pass to the command before quoting, so standard-wrap's output is reproduced
by inner-wrapping the pre-escaped command when shell wrapping is in effect,
and with shell wrapping off the two routines coincide exactly. -/
theorem standard_wrap_via_inner_wrap (e : Env) (c : String) (sh : Bool)
    (p : Option String) :
    ((sh && e.use_shell) = true →
      _shell_wrap e c sh p = _shell_wrap_inner e (_shell_escape c) sh p)
    ∧ ((sh && e.use_shell) = false →
      _shell_wrap e c sh p = _shell_wrap_inner e c sh p) := by
  constructor <;> intro h <;> simp [_shell_wrap, _shell_wrap_inner, h]

/-- Witness for the amended C4 at a command holding characters the escape
pass rewrites. -/
theorem standard_wrap_via_inner_wrap_w :
    _shell_wrap defaultEnv "echo $HOME" true none
      = _shell_wrap_inner defaultEnv (_shell_escape "echo $HOME") true none :=
  (standard_wrap_via_inner_wrap defaultEnv "echo $HOME" true none).1 (by decide)

/-- Claim C5: the host-execution path always supplies the root sudo prefix
when wrapping the outer command — the wrapped outer command starts with
`_sudo_prefix(None)` for every value of the caller's sudo flag — and the
replacement primitive routes the outer command through that path. -/
theorem host_execution_always_sudo (e : Env) (t c : String)
    (sh pty cs sf : Bool) (u : Option String) (chan : Channel) :
    (∃ rest, host_wrapped_command e (host_command e t c sf u) sh
        = sudoPrefixFor e none ++ " " ++ rest)
    ∧ (run_guest_command_st e t c sh pty cs sf u chan).1
        = _run_host_command e (host_command e t c sf u) sh pty cs chan := by
  refine ⟨?_, rfl⟩
  unfold host_wrapped_command _shell_wrap
  cases h : (sh && e.use_shell) <;>
    simp [h, sudoPart, String.append_assoc] <;>
    exact ⟨_, rfl⟩

/-- Claim C6 (counterexample): the caller's shell flag does change how the
outer command is wrapped — with it on, the outer command is shell-wrapped
and escaped; with it off, only the sudo prefix is prepended. -/
theorem shell_flag_affects_outer_wrapping :
    host_wrapped_command defaultEnv
        (host_command defaultEnv "101" "echo hi" false none) true
      ≠ host_wrapped_command defaultEnv
        (host_command defaultEnv "101" "echo hi" false none) false := by
  decide

/-- Claim C6 (amended): the caller's pty and combine-stderr flags have no
effect on how the outer command is escaped or wrapped — they are honored
only as plumbing handed to the execution channel, so two runs whose
channels agree on the one wrapped outer command built for the forwarded
shell flag return the same result. -/
theorem outer_wrap_ignores_pty_flags (e : Env) (t c : String)
    (sh pty cs pty2 cs2 sf : Bool) (u : Option String) (chan chan2 : Channel)
    (h : chan (host_wrapped_command e (host_command e t c sf u) sh) pty cs
       = chan2 (host_wrapped_command e (host_command e t c sf u) sh) pty2 cs2) :
    (run_guest_command_st e t c sh pty cs sf u chan).1
      = (run_guest_command_st e t c sh pty2 cs2 sf u chan2).1 := by
  show _run_host_command e (host_command e t c sf u) sh pty cs chan
      = _run_host_command e (host_command e t c sf u) sh pty2 cs2 chan2
  simp only [_run_host_command, h]

/-- Witness for the amended C6: flipping pty and combine-stderr leaves the
result unchanged when the channel ignores them. -/
theorem outer_wrap_ignores_pty_flags_w :
    (run_guest_command_st defaultEnv "101" "echo hi" true true true false none
        (fun _ _ _ => ("", "", 0))).1
      = (run_guest_command_st defaultEnv "101" "echo hi" true false false false none
        (fun _ _ _ => ("", "", 0))).1 :=
  outer_wrap_ignores_pty_flags defaultEnv "101" "echo hi" true true true false
    false false none (fun _ _ _ => ("", "", 0)) (fun _ _ _ => ("", "", 0)) rfl

/-- Claim C7: the two global settings the replacement primitive overrides —
`env.shell` and `env.sudo_prefix` — are restored within the same call,
before the outer command is executed (the host-execution path runs against
the original `env`), and the `env` returned by the call equals the original
in every field. -/
theorem guest_env_restored_before_execution (e : Env) (t c : String)
    (sh pty cs sf : Bool) (u : Option String) (chan : Channel) :
    run_guest_command_st e t c sh pty cs sf u chan
      = (_run_host_command e (host_command e t c sf u) sh pty cs chan, e) :=
  rfl

/-- Claim C8: with the shell flag off, or the global use-shell setting off,
both wrap routines return the command unmodified except for an optional
sudo-prefix-and-space — no shell invocation and no quoting is added. -/
theorem wrap_shell_off (e : Env) (c : String) (sh : Bool) (p : Option String)
    (h : sh = false ∨ e.use_shell = false) :
    _shell_wrap_inner e c sh p = sudoPart p ++ c
    ∧ _shell_wrap e c sh p = sudoPart p ++ c := by
  have hb : (sh && e.use_shell) = false := by
    rcases h with h | h <;> simp [h]
  constructor <;> simp [_shell_wrap_inner, _shell_wrap, hb]

/-- Witness for C8 with `shell = false` and a sudo prefix present. -/
theorem wrap_shell_off_w :
    _shell_wrap_inner defaultEnv "ls -l" false (some "sudo")
        = sudoPart (some "sudo") ++ "ls -l"
    ∧ _shell_wrap defaultEnv "ls -l" false (some "sudo")
        = sudoPart (some "sudo") ++ "ls -l" :=
  wrap_shell_off defaultEnv "ls -l" false (some "sudo") (Or.inl rfl)

/-- Claim C9: whenever the host-execution path returns a result object, it
carries the remote exit status as `return_code`, the captured stderr text,
and `succeeded` equal to the negation of `failed` — also in warn-only mode
when the exit status is nonzero and the error path is taken. -/
theorem run_host_command_result_attrs (e : Env) (c : String) (sh pty cs : Bool)
    (chan : Channel) (stdout stderr : String) (status : Int)
    (hc : chan (host_wrapped_command e c sh) pty cs = (stdout, stderr, status))
    (res : ExecResult)
    (h : _run_host_command e c sh pty cs chan = Except.ok res) :
    res.return_code = status ∧ res.stderr = stderr
      ∧ res.succeeded = !res.failed := by
  simp only [_run_host_command, hc] at h
  split at h
  · exact Except.noConfusion h
  · injection h with h2
    subst h2
    simp

/-- Witness for C9 on the warn-only error path: the returned result still
carries the exit status, stderr and `succeeded = !failed`. -/
theorem run_host_command_result_attrs_w :
    (ExecResult.mk "out" true 7 false "err").return_code = 7
    ∧ (ExecResult.mk "out" true 7 false "err").stderr = "err"
    ∧ (ExecResult.mk "out" true 7 false "err").succeeded
        = !(ExecResult.mk "out" true 7 false "err").failed :=
  run_host_command_result_attrs warnEnv "ls" true false true
    (fun _ _ _ => ("out", "err", 7)) "out" "err" 7 rfl
    (ExecResult.mk "out" true 7 false "err") rfl

/-- Claim C10: the inner guest command requests shell-wrapping
unconditionally — the inner wrap is invoked with shell `True`, so subject
only to the global use-shell setting the guest command is wrapped in
`/bin/bash -c` with double quotes, for every value of the caller's shell
flag, which reaches only the outer host-execution path. -/
theorem inner_wrap_unconditional (e : Env) (t c : String)
    (sh pty cs sf : Bool) (u : Option String) (chan : Channel)
    (hus : e.use_shell = true) :
    (run_guest_command_st e t c sh pty cs sf u chan).1
      = _run_host_command e (host_command e t c sf u) sh pty cs chan
    ∧ guest_command e c sf u
      = sudoPart (if sf && u.isSome then some (sudoPrefixFor (guestEnv e) u) else none)
        ++ ("/bin/bash -c" ++ " ")
        ++ ("\"" ++ _prefix_commands (guestEnv e) (_prefix_env_vars (guestEnv e) c) ++ "\"") := by
  refine ⟨rfl, ?_⟩
  simp [guest_command, _shell_wrap_inner, guestEnv, hus]

/-- Witness for C10: the caller passes a shell flag of `false`, yet the
guest command is still wrapped in `/bin/bash -c` with double quotes. -/
theorem inner_wrap_unconditional_w :
    (run_guest_command_st defaultEnv "101" "ls" false true true false none
        (fun _ _ _ => ("", "", 0))).1
      = _run_host_command defaultEnv (host_command defaultEnv "101" "ls" false none)
          false true true (fun _ _ _ => ("", "", 0))
    ∧ guest_command defaultEnv "ls" false none
      = sudoPart none ++ ("/bin/bash -c" ++ " ")
        ++ ("\"" ++ _prefix_commands (guestEnv defaultEnv)
              (_prefix_env_vars (guestEnv defaultEnv) "ls") ++ "\"") :=
  inner_wrap_unconditional defaultEnv "101" "ls" false true true false none
    (fun _ _ _ => ("", "", 0)) rfl

end OpenVZ
